import Mathlib

/-!
Shallow embedding of the `auto-device-status` plugin (`src/__init__.py`).

The plugin's observable behaviour is modelled by pure functions:

* `DeviceData` mirrors the persisted device rows the plugin queries
  (`id`, `name`, `using`, `status`, `last_updated`).
* `Plugin.perform_check` embeds `Plugin._perform_check`: given the cached
  `timeout_minutes`, the current time `now` (seconds since epoch, modelled
  as `Int`), and the device table, it returns the table as persisted after
  the call together with the ordered trace of external effects
  (broadcast events, the commit, the hook invocation).
* `Plugin.load_config` / `Plugin.save_config` embed `Plugin._load_config` /
  `Plugin._save_config` over an explicit model `FileState` of the config
  file's state (missing, unreadable, malformed, parsed JSON).
* `check_loop` embeds the control flow of `Plugin._check_loop`: it consumes
  the sequence of outcomes of successive `_perform_check` invocations and
  returns the error messages logged and whether the loop terminated.
-/

/-- Default used when the config file is missing or unreadable
(`DEFAULT_TIMEOUT_MINUTES = 10` in the source). -/
def DEFAULT_TIMEOUT_MINUTES : Int := 10

/-- The status string written by a reclamation (`"Offline (Auto)"`). -/
def OFFLINE_AUTO : String := "Offline (Auto)"

/-- A device row as the plugin sees it (`models.DeviceData`): the fields the
plugin reads (`id`, `name`, `using`, `last_updated`) and writes
(`using`, `status`).  `using` is spelled `usingFlag` because `using` cannot
be a field name in Lean.  `last_updated` is seconds since epoch. -/
structure DeviceData where
  id : Nat
  name : String
  usingFlag : Bool
  status : String
  last_updated : Int
deriving DecidableEq

/-- One external effect of a check, in emission order: an
`evt_broadcast('device_updated', {id, updated_fields})` call, the
`sess.commit()`, or a `trigger_hook('device_activity', device_ids, source)`
call. -/
inductive Event where
  | broadcast (event : String) (id : Nat) (usingVal : Bool) (statusVal : String)
  | commit
  | hook (hookName : String) (device_ids : List Nat) (source : String)
deriving DecidableEq

/-- The in-place mutation lines 97-98 of the source perform on a timed-out
device: `dev.using = False; dev.status = "Offline (Auto)"`. -/
def reclaim (dev : DeviceData) : DeviceData :=
  { dev with usingFlag := false, status := OFFLINE_AUTO }

/-- The payload broadcast for a reclaimed device (lines 103-106 and 108-111):
event `device_updated` with the device id and the changed fields. -/
def deviceBroadcast (dev : DeviceData) : Event :=
  .broadcast "device_updated" dev.id false OFFLINE_AUTO

/-- The `for dev in devices:` loop of `_perform_check` (lines 94-111) over the
queried in-use devices: returns the `modified` flag, the accumulated
`timed_out_devices` id list, and the broadcast events emitted during the
scan, in order.  The source awaits `evt_broadcast` twice per timed-out
device, so two broadcast events are appended per reclamation. -/
def checkLoop (timeout_seconds now : Int) : List DeviceData → Bool × List Nat × List Event
  | [] => (false, [], [])
  | dev :: rest =>
    let r := checkLoop timeout_seconds now rest
    if now - dev.last_updated > timeout_seconds then
      (true, dev.id :: r.2.1, deviceBroadcast dev :: deviceBroadcast dev :: r.2.2)
    else r

/-- The guard under which a device is staged for reclamation: it was returned
by the `using == True` query and `now - dev.last_updated > timeout_seconds`
(line 95). -/
def shouldReclaim (timeout_seconds now : Int) (dev : DeviceData) : Bool :=
  dev.usingFlag && decide (now - dev.last_updated > timeout_seconds)

/-- Embeds `Plugin._perform_check` (lines 84-116).  `table` is the device
table the session sees; the result is the table as persisted after the call
(staged mutations take effect only when `sess.commit()` runs) together with
the ordered effect trace: per-device broadcasts during the scan, then, when
`modified`, the commit, then the batch hook when `timed_out_devices` is
non-empty. -/
def Plugin.perform_check (timeout_minutes now : Int) (table : List DeviceData) :
    List DeviceData × List Event :=
  let timeout_seconds := timeout_minutes * 60
  let r := checkLoop timeout_seconds now (table.filter (fun dev => dev.usingFlag))
  if r.1 then
    (table.map (fun dev => if shouldReclaim timeout_seconds now dev then reclaim dev else dev),
     r.2.2 ++ [Event.commit] ++
       (if r.2.1.isEmpty then [] else [Event.hook "device_activity" r.2.1 "auto_timeout"]))
  else (table, r.2.2)

/-- The state of the config file as `_load_config` distinguishes it:
`missing` (the `os.path.exists` check fails), `readError` (opening or
reading raises), `parseError` (`json.load` raises on malformed JSON),
`notDict` (valid JSON that is not an object, so `data.get` raises
`AttributeError`), or a parsed JSON object, whose integer entries are the
key/value pairs (`_save_config` only ever writes the integer entry
`timeout`). -/
inductive FileState where
  | missing
  | readError
  | parseError
  | notDict
  | dict (fields : List (String × Int))
deriving DecidableEq

/-- Embeds `Plugin._load_config` (lines 49-57): a missing file returns the
default before the `try`; a read or parse failure, or an `AttributeError`
from calling `.get` on a non-dict, is swallowed by the bare `except` and
returns the default; `data.get('timeout', DEFAULT_TIMEOUT_MINUTES)` returns
the stored value when the key is present and the default otherwise.  The
function is total: no case raises to the caller. -/
def Plugin.load_config : FileState → Int
  | .missing => DEFAULT_TIMEOUT_MINUTES
  | .readError => DEFAULT_TIMEOUT_MINUTES
  | .parseError => DEFAULT_TIMEOUT_MINUTES
  | .notDict => DEFAULT_TIMEOUT_MINUTES
  | .dict fields =>
    match fields.find? (fun p => p.1 == "timeout") with
    | some p => p.2
    | none => DEFAULT_TIMEOUT_MINUTES

/-- Embeds `Plugin._save_config` (lines 59-61): overwrites the file with
`json.dump({'timeout': minutes})`, so the file afterwards parses to the one-
entry object `{"timeout": minutes}` (JSON serialisation of an integer-valued
object round-trips exactly). -/
def Plugin.save_config (minutes : Int) : FileState :=
  .dict [("timeout", minutes)]

/-- The plugin instance state the claims touch: the cached
`self.timeout_minutes` and the config file's state. -/
structure PluginState where
  timeout_minutes : Int
  file : FileState
deriving DecidableEq

/-- Embeds `Plugin.__init__` (lines 19-23): the cached timeout is loaded
from the config file once, at construction. -/
def Plugin.init (file : FileState) : PluginState :=
  { timeout_minutes := Plugin.load_config file, file := file }

/-- Embeds `Plugin.handle_set_timeout` (lines 63-65): persists the new value
via `_save_config` and prints a message; it does not touch the cached
`self.timeout_minutes`. -/
def Plugin.handle_set_timeout (st : PluginState) (minutes : Int) : PluginState :=
  { st with file := Plugin.save_config minutes }

/-- A tick of the plugin instance: `_perform_check` reads
`self.timeout_minutes` (line 85), the cached value. -/
def PluginState.perform_check (st : PluginState) (now : Int) (table : List DeviceData) :
    List DeviceData × List Event :=
  Plugin.perform_check st.timeout_minutes now table

/-- The outcome of one awaited `_perform_check` call as `_check_loop`
distinguishes it: normal return, the `asyncio.CancelledError` cancellation
signal, or any other exception with its message. -/
inductive CheckOutcome where
  | ok
  | cancelled
  | raised (msg : String)
deriving DecidableEq

/-- The message `_check_loop` logs for a non-cancellation exception
(line 79). -/
def errorLog (msg : String) : String :=
  "Error in auto status check: " ++ msg

/-- Embeds the control flow of `Plugin._check_loop` (lines 70-82) over the
sequence of outcomes of successive `_perform_check` calls: `ok` falls
through to the sleep and the next iteration, `cancelled` breaks out of the
`while True`, and any other exception is logged and the loop continues.
Returns the logged error messages and whether the loop terminated within the
given outcomes (outcomes after a `cancelled` are never reached). -/
def check_loop : List CheckOutcome → List String × Bool
  | [] => ([], false)
  | .ok :: rest => check_loop rest
  | .cancelled :: _ => ([], true)
  | .raised msg :: rest =>
    let r := check_loop rest
    (errorLog msg :: r.1, r.2)

/-- Concrete in-use device, idle since epoch. -/
def devStale : DeviceData :=
  { id := 1, name := "laptop", usingFlag := true, status := "online", last_updated := 0 }

/-- Concrete in-use device whose `last_updated` lies in the future. -/
def devFuture : DeviceData :=
  { id := 3, name := "tablet", usingFlag := true, status := "online", last_updated := 1001 }

/-- Counts the `device_updated` broadcast events of a trace that carry the
given device id. -/
def countBroadcasts (devId : Nat) (evts : List Event) : Nat :=
  evts.countP (fun e =>
    match e with
    | .broadcast _ i _ _ => i == devId
    | _ => false)

/-- True on broadcast events. -/
def isBroadcast : Event → Bool
  | .broadcast _ _ _ _ => true
  | _ => false

/-- True on the commit. -/
def isCommit : Event → Bool
  | .commit => true
  | _ => false

/-- True on hook invocations. -/
def isHook : Event → Bool
  | .hook _ _ _ => true
  | _ => false

/-- Scans a trace left to right: true when no broadcast event occurs before
the first commit. -/
def noBroadcastBeforeCommit : List Event → Bool
  | [] => true
  | .commit :: _ => true
  | .broadcast _ _ _ _ :: _ => false
  | .hook _ _ _ :: rest => noBroadcastBeforeCommit rest

/-- The scan's `timed_out_devices` list is exactly the ids of the scanned
devices whose idle time exceeds the timeout, in scan order. -/
theorem checkLoop_ids (ts now : Int) (devs : List DeviceData) :
    (checkLoop ts now devs).2.1
      = (devs.filter (fun d => decide (now - d.last_updated > ts))).map (fun d => d.id) := by
  induction devs with
  | nil => rfl
  | cons d rest ih =>
    by_cases hc : now - d.last_updated > ts <;>
      simp [checkLoop, List.filter_cons, hc, ih]

/-- The scan's `modified` flag is set exactly when some scanned device timed
out. -/
theorem checkLoop_modified (ts now : Int) (devs : List DeviceData) :
    (checkLoop ts now devs).1
      = !(devs.filter (fun d => decide (now - d.last_updated > ts))).isEmpty := by
  induction devs with
  | nil => rfl
  | cons d rest ih =>
    by_cases hc : now - d.last_updated > ts <;>
      simp [checkLoop, List.filter_cons, hc, ih]

/-- Every event the scan itself emits is a broadcast: the commit and the hook
happen only after the loop. -/
theorem checkLoop_events_broadcast (ts now : Int) (devs : List DeviceData) :
    ∀ e ∈ (checkLoop ts now devs).2.2, isBroadcast e = true := by
  induction devs with
  | nil => intro e he; simp [checkLoop] at he
  | cons d rest ih =>
    intro e he
    by_cases hc : now - d.last_updated > ts
    · simp only [checkLoop, if_pos hc] at he
      simp only [List.mem_cons] at he
      rcases he with rfl | rfl | h
      · rfl
      · rfl
      · exact ih e h
    · simp only [checkLoop, if_neg hc] at he
      exact ih e he

/-- Filtering the `using == True` query result by the timeout guard is
filtering the whole table by `shouldReclaim`. -/
theorem filter_using_then_timeout (ts now : Int) (table : List DeviceData) :
    (table.filter (fun dev => dev.usingFlag)).filter
        (fun d => decide (now - d.last_updated > ts))
      = table.filter (shouldReclaim ts now) := by
  induction table with
  | nil => rfl
  | cons d rest ih =>
    cases hu : d.usingFlag
    · simp [List.filter_cons, shouldReclaim, hu, ih]
    · by_cases hc : now - d.last_updated > ts <;>
        simp [List.filter_cons, shouldReclaim, hu, hc, ih]

/-- When no device satisfies the reclamation guard, the committed table map
is the identity. -/
theorem map_reclaim_of_filter_nil (ts now : Int) (table : List DeviceData)
    (h : table.filter (shouldReclaim ts now) = []) :
    table.map (fun dev => if shouldReclaim ts now dev then reclaim dev else dev) = table := by
  induction table with
  | nil => rfl
  | cons d rest ih =>
    rw [List.filter_cons] at h
    split at h
    · exact absurd h (List.cons_ne_nil _ _)
    · simp_all

/-- The table `_perform_check` leaves persisted: every device satisfying the
reclamation guard is reclaimed, every other device is untouched (when
nothing is staged, `sess.commit()` never runs and the map is the
identity). -/
theorem perform_check_fst (timeout_minutes now : Int) (table : List DeviceData) :
    (Plugin.perform_check timeout_minutes now table).1
      = table.map (fun dev =>
          if shouldReclaim (timeout_minutes * 60) now dev then reclaim dev else dev) := by
  simp only [Plugin.perform_check]
  split
  · rfl
  · rename_i hmod
    rw [checkLoop_modified, filter_using_then_timeout] at hmod
    rw [map_reclaim_of_filter_nil]
    simpa using hmod

/-- A broadcast event is not a hook invocation. -/
theorem isHook_eq_false_of_isBroadcast (e : Event) (h : isBroadcast e = true) :
    isHook e = false := by
  cases e <;> simp_all [isBroadcast, isHook]

/-- Further concrete in-use devices, idle long enough to time out at
`now = 700` with a 10-minute timeout. -/
def devStale2 : DeviceData :=
  { id := 2, name := "phone", usingFlag := true, status := "busy", last_updated := 10 }

/-- Third concrete stale in-use device. -/
def devStale3 : DeviceData :=
  { id := 3, name := "camera", usingFlag := true, status := "busy", last_updated := 20 }

/-- Concrete device that is not in use. -/
def devIdle : DeviceData :=
  { id := 4, name := "spare", usingFlag := false, status := "offline", last_updated := 0 }

/-- Plugin instance constructed over a config file persisting 10 minutes. -/
def st10 : PluginState := Plugin.init (Plugin.save_config 10)

/-- C1: the source awaits `evt_broadcast('device_updated', ...)` twice for
each reclaimed device (lines 103-106 and 108-111), so one reclaimed device
produces two broadcast events in one check, where the claim (and the spec,
which flags the duplication as a confirmed defect) mandates exactly one:
with a 10-minute timeout, `now = 601` and the single stale device
`devStale`, the trace carries two `device_updated` events for id 1. -/
theorem C1_duplicate_broadcast :
    countBroadcasts 1 (Plugin.perform_check 10 601 [devStale]).2 = 2 := by decide

/-- C2: `handle_set_timeout` only writes the config file; the cached
`self.timeout_minutes` that `_perform_check` reads is set once in
`__init__` and never refreshed, so the next tick does not use the newly
persisted value: after `set-timeout 15` on a plugin cached at 10, the file
holds 15 but the cache still holds 10, and a device idle 700 seconds is
reclaimed by the next tick (700 > 10*60) although a 15-minute timeout
(which the claim says the next tick uses) would leave it alone
(700 < 15*60). -/
theorem C2_cached_timeout_stale :
    Plugin.load_config (Plugin.handle_set_timeout st10 15).file = 15 ∧
    (Plugin.handle_set_timeout st10 15).timeout_minutes = 10 ∧
    (PluginState.perform_check (Plugin.handle_set_timeout st10 15) 700 [devStale]).1
      = [reclaim devStale] ∧
    (Plugin.perform_check 15 700 [devStale]).1 = [devStale] := by decide

/-- C3 counterexample: in the check that reclaims `devStale` (timeout 10,
`now = 601`), a `device_updated` broadcast occurs in the trace before the
first commit, refuting "no broadcast is emitted prior to the commit". -/
theorem C3_broadcast_before_commit :
    noBroadcastBeforeCommit (Plugin.perform_check 10 601 [devStale]).2 = false := by decide

/-- C3 amended: the staged mutations are committed at most once per check,
but the commit happens after the scan while the broadcasts are emitted
during the scan: every trace of `_perform_check` splits into a prefix of
broadcast events followed by a broadcast-free tail containing at most one
commit. -/
theorem C3_broadcasts_then_commit (timeout_minutes now : Int) (table : List DeviceData) :
    ∃ bs tail,
      (Plugin.perform_check timeout_minutes now table).2 = bs ++ tail ∧
      (∀ e ∈ bs, isBroadcast e = true) ∧
      (∀ e ∈ tail, isBroadcast e = false) ∧
      tail.countP isCommit ≤ 1 := by
  by_cases hmod :
      (checkLoop (timeout_minutes * 60) now
        (table.filter (fun dev => dev.usingFlag))).1 = true
  · refine ⟨_, Event.commit ::
      (if (checkLoop (timeout_minutes * 60) now
            (table.filter (fun dev => dev.usingFlag))).2.1.isEmpty
       then []
       else [Event.hook "device_activity"
         (checkLoop (timeout_minutes * 60) now
           (table.filter (fun dev => dev.usingFlag))).2.1 "auto_timeout"]),
      ?_,
      checkLoop_events_broadcast (timeout_minutes * 60) now
        (table.filter (fun dev => dev.usingFlag)), ?_, ?_⟩
    · simp [Plugin.perform_check, hmod]
    · intro e he
      simp only [List.mem_cons] at he
      rcases he with rfl | he
      · rfl
      · split at he
        · simp at he
        · simp only [List.mem_singleton] at he
          rw [he]; rfl
    · split <;> simp [isCommit, List.countP_cons]
  · refine ⟨_, [], ?_,
      checkLoop_events_broadcast (timeout_minutes * 60) now
        (table.filter (fun dev => dev.usingFlag)), ?_, ?_⟩
    · rw [List.append_nil]; simp [Plugin.perform_check, hmod]
    · intro e he; simp at he
    · simp

/-- C4: for every timeout `T > 0`, a check at time `now` reclaims an in-use
device whose `last_updated` is `now - T*60 - 1` (its idle time `T*60 + 1`
strictly exceeds the timeout: `using` becomes false, `status` becomes
"Offline (Auto)"), and leaves an in-use device whose `last_updated` is
`now - T*60 + 1` untouched (idle time `T*60 - 1` does not exceed the
timeout). -/
theorem C4_reclaim_boundary (T now : Int) (_hT : 0 < T) (i : Nat) (nm st : String) :
    (Plugin.perform_check T now [⟨i, nm, true, st, now - T * 60 - 1⟩]).1
      = [⟨i, nm, false, OFFLINE_AUTO, now - T * 60 - 1⟩] ∧
    (Plugin.perform_check T now [⟨i, nm, true, st, now - T * 60 + 1⟩]).1
      = [⟨i, nm, true, st, now - T * 60 + 1⟩] := by
  constructor
  · rw [perform_check_fst]
    have hc : now - (now - T * 60 - 1) > T * 60 := by omega
    simp [shouldReclaim, reclaim, hc]
  · rw [perform_check_fst]
    have hc : ¬(now - (now - T * 60 + 1) > T * 60) := by omega
    simp [shouldReclaim, hc]

/-- C4 witness at `T = 10`, `now = 1000`. -/
theorem C4_reclaim_boundary_witness :
    (Plugin.perform_check 10 1000 [⟨1, "dev", true, "online", 1000 - 10 * 60 - 1⟩]).1
      = [⟨1, "dev", false, OFFLINE_AUTO, 1000 - 10 * 60 - 1⟩] ∧
    (Plugin.perform_check 10 1000 [⟨1, "dev", true, "online", 1000 - 10 * 60 + 1⟩]).1
      = [⟨1, "dev", true, "online", 1000 - 10 * 60 + 1⟩] :=
  C4_reclaim_boundary 10 1000 (by decide) 1 "dev" "online"

/-- C5: `_load_config` returns the default of 10 minutes for a missing file,
an unreadable file, malformed JSON, JSON that is not an object, and an
object without the `timeout` key; the embedding is a total function, so no
case raises to the caller (the source reaches these cases either before the
`try` or through the bare `except`). -/
theorem C5_load_default (fields : List (String × Int))
    (h : fields.find? (fun p => p.1 == "timeout") = none) :
    Plugin.load_config .missing = 10 ∧
    Plugin.load_config .readError = 10 ∧
    Plugin.load_config .parseError = 10 ∧
    Plugin.load_config .notDict = 10 ∧
    Plugin.load_config (.dict fields) = 10 := by
  refine ⟨rfl, rfl, rfl, rfl, ?_⟩
  simp [Plugin.load_config, h, DEFAULT_TIMEOUT_MINUTES]

/-- C5 witness: a config object holding only an unrelated key. -/
theorem C5_load_default_witness :
    Plugin.load_config .missing = 10 ∧
    Plugin.load_config .readError = 10 ∧
    Plugin.load_config .parseError = 10 ∧
    Plugin.load_config .notDict = 10 ∧
    Plugin.load_config (.dict [("retries", 3)]) = 10 :=
  C5_load_default [("retries", 3)] rfl

/-- C6: for every integer `m`, `_save_config m` writes `{"timeout": m}` and
`_load_config` on the resulting file returns `m`: the round-trip is the
identity. -/
theorem C6_save_load_roundtrip (m : Int) :
    Plugin.load_config (Plugin.save_config m) = m := rfl

/-- C7: whenever at least one device is reclaimed in a check, the trace
carries exactly one hook invocation, and it is the
`trigger_hook('device_activity', device_ids, source='auto_timeout')` call
whose id list is the full list of all reclaimed device ids of that tick, in
scan order. -/
theorem C7_single_batched_hook (timeout_minutes now : Int) (table : List DeviceData)
    (h : table.filter (shouldReclaim (timeout_minutes * 60) now) ≠ []) :
    ((Plugin.perform_check timeout_minutes now table).2).countP isHook = 1 ∧
    Event.hook "device_activity"
        ((table.filter (shouldReclaim (timeout_minutes * 60) now)).map (fun d => d.id))
        "auto_timeout"
      ∈ (Plugin.perform_check timeout_minutes now table).2 := by
  have hids : (checkLoop (timeout_minutes * 60) now
      (table.filter (fun dev => dev.usingFlag))).2.1
      = (table.filter (shouldReclaim (timeout_minutes * 60) now)).map (fun d => d.id) := by
    rw [checkLoop_ids, filter_using_then_timeout]
  have hmod : (checkLoop (timeout_minutes * 60) now
      (table.filter (fun dev => dev.usingFlag))).1 = true := by
    rw [checkLoop_modified, filter_using_then_timeout]
    simpa using h
  have hne : (checkLoop (timeout_minutes * 60) now
      (table.filter (fun dev => dev.usingFlag))).2.1.isEmpty = false := by
    rw [hids]
    simpa using h
  have hzero : ((checkLoop (timeout_minutes * 60) now
      (table.filter (fun dev => dev.usingFlag))).2.2).countP isHook = 0 := by
    rw [List.countP_eq_zero]
    intro e he
    simp [isHook_eq_false_of_isBroadcast e (checkLoop_events_broadcast _ _ _ e he)]
  have htrace : (Plugin.perform_check timeout_minutes now table).2
      = (checkLoop (timeout_minutes * 60) now
          (table.filter (fun dev => dev.usingFlag))).2.2
        ++ [Event.commit]
        ++ [Event.hook "device_activity"
             (checkLoop (timeout_minutes * 60) now
               (table.filter (fun dev => dev.usingFlag))).2.1
             "auto_timeout"] := by
    simp [Plugin.perform_check, hmod, hne]
  constructor
  · rw [htrace]
    simp [List.countP_append, hzero, isHook]
  · rw [htrace, hids]
    simp

/-- C7 witness: three stale in-use devices at `now = 700` with a 10-minute
timeout are all reclaimed by one check, and the single hook invocation
carries all three ids. -/
theorem C7_single_batched_hook_witness :
    ((Plugin.perform_check 10 700 [devStale, devStale2, devStale3]).2).countP isHook = 1 ∧
    Event.hook "device_activity" [1, 2, 3] "auto_timeout"
      ∈ (Plugin.perform_check 10 700 [devStale, devStale2, devStale3]).2 :=
  C7_single_batched_hook 10 700 [devStale, devStale2, devStale3] (by decide)

/-- C8: when the `using == True` query returns no devices, a check stages
nothing, so `modified` stays false and the call returns the table unchanged
with an empty effect trace: zero commits, zero broadcasts and zero hook
invocations. -/
theorem C8_no_inuse_no_effects (timeout_minutes now : Int) (table : List DeviceData)
    (h : table.filter (fun dev => dev.usingFlag) = []) :
    Plugin.perform_check timeout_minutes now table = (table, []) := by
  simp [Plugin.perform_check, h, checkLoop]

/-- C8 witness: a table holding one device that is not in use. -/
theorem C8_no_inuse_no_effects_witness :
    Plugin.perform_check 10 700 [devIdle] = ([devIdle], []) :=
  C8_no_inuse_no_effects 10 700 [devIdle] rfl

/-- C9: one iteration of `_check_loop` around a `_perform_check` that raises
a non-cancellation exception logs the error and continues with the
remaining iterations unchanged; a cancellation terminates the loop at once;
and the loop terminates within a finite outcome sequence only when that
sequence contains the cancellation signal. -/
theorem C9_loop_isolation (msg : String) (rest outcomes : List CheckOutcome) :
    check_loop (CheckOutcome.raised msg :: rest)
      = (errorLog msg :: (check_loop rest).1, (check_loop rest).2) ∧
    (check_loop (CheckOutcome.cancelled :: rest)).2 = true ∧
    ((check_loop outcomes).2 = true → CheckOutcome.cancelled ∈ outcomes) := by
  refine ⟨rfl, rfl, ?_⟩
  induction outcomes with
  | nil => intro hstop; simp [check_loop] at hstop
  | cons o rest2 ih =>
    intro hstop
    cases o with
    | ok =>
      simp only [check_loop] at hstop
      exact List.mem_cons_of_mem _ (ih hstop)
    | cancelled => exact List.mem_cons_self _ _
    | raised msg2 =>
      simp only [check_loop] at hstop
      exact List.mem_cons_of_mem _ (ih hstop)

/-- C10 counterexample: with `T = 0` and `now = 1000`, the in-use device
`devFuture` was not updated at the exact current instant
(`last_updated = 1001`), yet the check does not reclaim it — the guard
`now - last_updated > 0` is false for a future timestamp — refuting the
claim's `T = 0` clause. -/
theorem C10_future_device_not_reclaimed :
    devFuture.usingFlag = true ∧ devFuture.last_updated ≠ 1000 ∧
    Plugin.perform_check 0 1000 [devFuture] = ([devFuture], []) := by decide

/-- C10 amended: for every non-positive timeout `T`, which `_save_config`
and `_load_config` accept and round-trip without validation, a check
reclaims exactly the in-use devices with `now - last_updated > T*60`: with
`T = 0` every in-use device with `last_updated` strictly before `now`
(not one with a current or future timestamp), and with negative `T` also
devices whose `last_updated` lies strictly less than `|T|*60` seconds in
the future. -/
theorem C10_nonpositive_timeout (T : Int) (_hT : T ≤ 0) (now : Int) (table : List DeviceData) :
    Plugin.load_config (Plugin.save_config T) = T ∧
    (Plugin.perform_check T now table).1
      = table.map (fun dev =>
          if dev.usingFlag && decide (now - dev.last_updated > T * 60)
          then reclaim dev else dev) :=
  ⟨rfl, perform_check_fst T now table⟩

/-- C10 witness at `T = 0`, `now = 700`: the stale device is reclaimed. -/
theorem C10_nonpositive_timeout_witness :
    Plugin.load_config (Plugin.save_config 0) = 0 ∧
    (Plugin.perform_check 0 700 [devStale]).1
      = [devStale].map (fun dev =>
          if dev.usingFlag && decide (700 - dev.last_updated > 0 * 60)
          then reclaim dev else dev) :=
  C10_nonpositive_timeout 0 (by decide) 700 [devStale]
